import Mathlib

/-!
Shallow embedding of the purchase-approval workflow of the financiero module
(`financiero.states.js`, `financiero.schema.js`, `financiero.repository.js`,
`financiero.service.js`, routed through `validate.middleware.js` and
`pool.js` / `withTransaction`).

Monetary amounts are modelled as rationals (exact arithmetic over the decimal
columns `NUMERIC(12,4)` / `NUMERIC(14,2)` / `NUMERIC(16,2)`), identifiers as
naturals, the relational state as explicit lists threaded through each
operation, and fallible service operations as `Except` values paired with the
database state after the call (the rollback of `withTransaction` restores the
pre-call state on error).
-/

deriving instance DecidableEq for Except

/-- The nine request states of `ESTADOS_COMPRA` (also the CHECK constraint on
`solicitudes_compra.estado`). -/
inductive Estado where
  | borrador
  | pendiente_jefe
  | pendiente_gerencia
  | pendiente_tesoreria
  | aprobada
  | rechazada
  | anulada
  | en_proceso
  | completada
deriving DecidableEq

/-- The string tag stored for each state (the values of `ESTADOS_COMPRA`). -/
def estadoString : Estado → String
  | Estado.borrador => "borrador"
  | Estado.pendiente_jefe => "pendiente_jefe"
  | Estado.pendiente_gerencia => "pendiente_gerencia"
  | Estado.pendiente_tesoreria => "pendiente_tesoreria"
  | Estado.aprobada => "aprobada"
  | Estado.rechazada => "rechazada"
  | Estado.anulada => "anulada"
  | Estado.en_proceso => "en_proceso"
  | Estado.completada => "completada"

/-- The two configurable thresholds of `UMBRALES_APROBACION`. -/
structure Umbrales where
  JEFE_AREA : ℚ
  GERENCIA : ℚ
deriving DecidableEq

/-- Default configuration of `UMBRALES_APROBACION` (the fallback values
`5000000` and `20000000` used when the environment variables are unset). -/
def UMBRALES_APROBACION : Umbrales :=
  { JEFE_AREA := 5000000, GERENCIA := 20000000 }

/-- `calcularFlujoAprobacion(monto)`: starts from `[PENDIENTE_JEFE]`, pushes
`PENDIENTE_GERENCIA` when `monto >= UMBRALES.JEFE_AREA`, pushes
`PENDIENTE_TESORERIA` when `monto >= UMBRALES.GERENCIA`, then pushes
`APROBADA`. -/
def calcularFlujoAprobacion (u : Umbrales) (monto : ℚ) : List Estado :=
  [Estado.pendiente_jefe]
    ++ (if u.JEFE_AREA ≤ monto then [Estado.pendiente_gerencia] else [])
    ++ (if u.GERENCIA ≤ monto then [Estado.pendiente_tesoreria] else [])
    ++ [Estado.aprobada]

/-- JavaScript `Array.prototype.indexOf`: index of the first occurrence, and
`-1` when the element does not occur. -/
def jsIndexOf : List Estado → Estado → Int
  | [], _ => -1
  | x :: xs, e =>
    if x = e then 0
    else
      if jsIndexOf xs e = -1 then -1 else jsIndexOf xs e + 1

/-- JavaScript array read `l[i]` at a possibly out-of-range signed index,
composed with the `|| null` coercion of `siguienteEstado` (every state tag is
a non-empty string, hence truthy, so only `undefined` becomes `null`). -/
def jsGetEstado (l : List Estado) (i : Int) : Option Estado :=
  if h : 0 ≤ i ∧ i.toNat < l.length then some (l.get ⟨i.toNat, h.2⟩) else none

/-- `siguienteEstado(estadoActual, monto)`:
`flujo[flujo.indexOf(estadoActual) + 1] || null`. -/
def siguienteEstado (u : Umbrales) (estadoActual : Estado) (monto : ℚ) : Option Estado :=
  jsGetEstado (calcularFlujoAprobacion u monto)
    (jsIndexOf (calcularFlujoAprobacion u monto) estadoActual + 1)

/-- The lookup object `ROLES_POR_ESTADO` (absent keys give `undefined`). -/
def ROLES_POR_ESTADO : Estado → Option (List String)
  | Estado.pendiente_jefe => some ["jefe_area", "gerente", "admin"]
  | Estado.pendiente_gerencia => some ["gerente", "admin"]
  | Estado.pendiente_tesoreria => some ["tesorero", "admin"]
  | _ => none

/-- `puedeAprobar(rol, estadoActual)`:
`(ROLES_POR_ESTADO[estadoActual] || []).includes(rol)`. -/
def puedeAprobar (rol : String) (estadoActual : Estado) : Bool :=
  ((ROLES_POR_ESTADO estadoActual).getD []).contains rol

/-- Whitespace removal performed by the Joi `trim()` conversion, written over
the character list so that it evaluates by kernel reduction. -/
def joiTrim (s : String) : String :=
  String.mk
    (((s.data.dropWhile (fun c => c = ' ' ∨ c = '\t' ∨ c = '\n' ∨ c = '\r')).reverse.dropWhile
        (fun c => c = ' ' ∨ c = '\t' ∨ c = '\n' ∨ c = '\r')).reverse)

/-- `accionAprobacionSchema`, comment rule: when `accion = 'rechazar'` the
comment is required, must be a string and must be non-empty after trimming
(Joi rejects the empty string), at most 1000 characters; otherwise the comment
is optional and may also be empty or null. `none` models an absent or null
field. -/
def comentarioValido (accion : String) (comentario : Option String) : Bool :=
  if accion = "rechazar" then
    match comentario with
    | some c => ((joiTrim c ≠ "" : Bool)) && (joiTrim c).length ≤ 1000
    | none => false
  else
    match comentario with
    | some c => ((joiTrim c = "" : Bool)) || (joiTrim c).length ≤ 1000
    | none => true

/-- `accionAprobacionSchema` as a whole: `accion` is required and must be one
of `'aprobar'` and `'rechazar'`, and the comment rule above must hold. -/
def accionAprobacionValida (accion : Option String) (comentario : Option String) : Bool :=
  match accion with
  | some a => ((a = "aprobar" : Bool) || (a = "rechazar" : Bool)) && comentarioValido a comentario
  | none => false

/-- A row of `solicitud_compra_items` (the stored `subtotal` column is the
generated product written by `crearItemsSolicitud`). -/
structure ItemCompra where
  solicitud_id : Nat
  descripcion : String
  cantidad : ℚ
  precio_unitario : ℚ
  subtotal : ℚ
deriving DecidableEq

/-- A row of `solicitudes_compra` (the columns the workflow reads or writes;
`deleted` models `deleted_at IS NOT NULL`). -/
structure Solicitud where
  id : Nat
  titulo : String
  justificacion : String
  proyecto_id : Option Nat
  area_id : Nat
  estado : Estado
  urgente : Bool
  monto_total : ℚ
  solicitante_id : Nat
  updated_by : Option Nat
  deleted : Bool
deriving DecidableEq

/-- A row of the append-only ledger `aprobaciones_compra`.  `nivel_aprobacion`
is an `Option` because the JavaScript lookup `nivelMap[estadoActual]` yields
`undefined` outside the three pending states. -/
structure Aprobacion where
  solicitud_id : Nat
  nivel_aprobacion : Option Nat
  accion : String
  comentario : Option String
  aprobador_id : Nat
  estado_resultante : Estado
deriving DecidableEq

/-- The relational state the workflow touches: the three tables plus the
sequence backing `solicitudes_compra.id`. -/
structure DB where
  solicitudes : List Solicitud
  items : List ItemCompra
  aprobaciones : List Aprobacion
  nextId : Nat
deriving DecidableEq

/-- The error taxonomy of the financiero service: the `AppError` subclasses
it throws, plus `storage`, modelling database errors (such as CHECK-constraint
violations raised by an INSERT) that propagate through the service, roll the
transaction back, and surface as internal errors. -/
inductive AppError where
  | notFound (resource : String)
  | validation (message : String)
  | forbidden (message : String)
  | storage (message : String)
deriving DecidableEq

/-- `withTransaction(callback)`: runs the callback against the current state;
on success the written state is committed, on any error the transaction is
rolled back and the pre-transaction state is kept. -/
def withTransaction {α : Type} (db : DB) (callback : DB → Except AppError (α × DB)) :
    Except AppError α × DB :=
  match callback db with
  | Except.ok r => (Except.ok r.1, r.2)
  | Except.error e => (Except.error e, db)

/-- `obtenerSolicitudCompleta(id)`: the first row with this id and
`deleted_at IS NULL`, or null. -/
def obtenerSolicitudCompleta (db : DB) (id : Nat) : Option Solicitud :=
  db.solicitudes.find? (fun s => s.id == id && !s.deleted)

/-- `actualizarEstadoSolicitud`: `UPDATE solicitudes_compra SET estado, updated_by
WHERE id = $3 RETURNING *`; the pair is (first updated row, updated table
state). -/
def actualizarEstadoSolicitudRet (db : DB) (id : Nat) (estado : Estado) (usuarioId : Nat) :
    Option Solicitud × DB :=
  ((db.solicitudes.find? (fun s => s.id == id)).map
      (fun s => { s with estado := estado, updated_by := some usuarioId }),
   { db with
      solicitudes := db.solicitudes.map
        (fun s => if s.id = id then { s with estado := estado, updated_by := some usuarioId }
                  else s) })

/-- The action domain of the DDL constraint
`CHECK (accion IN ('envio','aprobar','rechazar'))` on `aprobaciones_compra`. -/
def ACCIONES_PERMITIDAS : List String := ["envio", "aprobar", "rechazar"]

/-- `registrarAprobacion`: `INSERT INTO aprobaciones_compra ...`.  The table's
CHECK constraint restricts `accion` to `ACCIONES_PERMITIDAS`: an in-domain
insert appends one ledger row and touches nothing else, while any other
action tag makes the INSERT raise a database error.  (The table's remaining
constraints cannot fail on the service's calls: `nivel_aprobacion` is
non-null exactly for the stages `validarAprobacion` lets through.) -/
def registrarAprobacion (db : DB) (a : Aprobacion) : Except AppError DB :=
  if a.accion ∈ ACCIONES_PERMITIDAS then
    Except.ok { db with aprobaciones := db.aprobaciones ++ [a] }
  else
    Except.error (AppError.storage "aprobaciones_compra_accion_check")

/-- The body accepted by `crearSolicitud` after schema validation. -/
structure DatosItem where
  descripcion : String
  cantidad : ℚ
  precio_unitario : ℚ
deriving DecidableEq

/-- The request body of `crearSolicitud` after schema validation. -/
structure DatosSolicitud where
  titulo : String
  justificacion : String
  proyecto_id : Option Nat
  area_id : Nat
  items : List DatosItem
  urgente : Bool
deriving DecidableEq

/-- Service `crearSolicitud(datos, solicitanteId)`: derives
`montoTotal = datos.items.reduce((acc, it) => acc + it.cantidad * it.precio_unitario, 0)`,
then inside one transaction inserts the request row in state `borrador` and
its item rows with `subtotal = cantidad * precio_unitario`; returns the
created request together with its items. -/
def crearSolicitud (db : DB) (datos : DatosSolicitud) (solicitanteId : Nat) :
    (Solicitud × List ItemCompra) × DB :=
  let montoTotal := datos.items.foldl (fun acc it => acc + it.cantidad * it.precio_unitario) 0
  let sol : Solicitud :=
    { id := db.nextId, titulo := datos.titulo, justificacion := datos.justificacion,
      proyecto_id := datos.proyecto_id, area_id := datos.area_id, estado := Estado.borrador,
      urgente := datos.urgente, monto_total := montoTotal, solicitante_id := solicitanteId,
      updated_by := none, deleted := false }
  let nuevos : List ItemCompra := datos.items.map
    (fun it =>
      { solicitud_id := db.nextId, descripcion := it.descripcion, cantidad := it.cantidad,
        precio_unitario := it.precio_unitario, subtotal := it.cantidad * it.precio_unitario })
  ((sol, nuevos),
   { db with
      solicitudes := db.solicitudes ++ [sol],
      items := db.items ++ nuevos,
      nextId := db.nextId + 1 })

/-- The ledger row written by `enviarSolicitud`. -/
def eventoEnvio (solicitudId usuarioId : Nat) : Aprobacion :=
  { solicitud_id := solicitudId, nivel_aprobacion := some 0, accion := "envio",
    comentario := some "Solicitud enviada para aprobación", aprobador_id := usuarioId,
    estado_resultante := Estado.pendiente_jefe }

/-- Service `enviarSolicitud(solicitudId, usuarioId)`: loads the request
(NotFound when absent or soft-deleted), requires the caller to be the
requester (Forbidden) and the state to be `borrador` (Validation); then inside
one transaction moves the state to `pendiente_jefe` and appends the level-0
`envio` ledger row. -/
def enviarSolicitud (db : DB) (solicitudId : Nat) (usuarioId : Nat) :
    Except AppError (Option Solicitud) × DB :=
  match obtenerSolicitudCompleta db solicitudId with
  | none => (Except.error (AppError.notFound "Solicitud de compra"), db)
  | some solicitud =>
    if solicitud.solicitante_id ≠ usuarioId then
      (Except.error (AppError.forbidden "Solo el solicitante puede enviar esta solicitud"), db)
    else if solicitud.estado ≠ Estado.borrador then
      (Except.error (AppError.validation "Solo se pueden enviar solicitudes en estado borrador"),
       db)
    else
      withTransaction db (fun db0 =>
        match registrarAprobacion
            (actualizarEstadoSolicitudRet db0 solicitudId Estado.pendiente_jefe usuarioId).2
            (eventoEnvio solicitudId usuarioId) with
        | Except.error e => Except.error e
        | Except.ok db2 =>
          Except.ok
            ((actualizarEstadoSolicitudRet db0 solicitudId Estado.pendiente_jefe usuarioId).1,
             db2))

/-- The argument record of `procesarAprobacion`. -/
structure AccionParams where
  solicitudId : Nat
  accion : String
  comentario : Option String
  usuarioId : Nat
  rol : String
deriving DecidableEq

/-- The `estadosAprobables` array of `procesarAprobacion`. -/
def estadosAprobables : List Estado :=
  [Estado.pendiente_jefe, Estado.pendiente_gerencia, Estado.pendiente_tesoreria]

/-- The `nivelMap` lookup object of `procesarAprobacion`. -/
def nivelMap : Estado → Option Nat
  | Estado.pendiente_jefe => some 1
  | Estado.pendiente_gerencia => some 2
  | Estado.pendiente_tesoreria => some 3
  | _ => none

/-- The record returned by a successful `procesarAprobacion`. -/
structure ResultadoAprobacion where
  solicitudId : Nat
  estadoAnterior : Estado
  estadoNuevo : Estado
deriving DecidableEq

/-- The read and the three validations `procesarAprobacion` performs before
opening its transaction: load (NotFound when absent or soft-deleted), state
must be one of the three pending states (Validation), the role must be able to
approve at that state (Forbidden). -/
def validarAprobacion (db : DB) (p : AccionParams) : Except AppError Solicitud :=
  match obtenerSolicitudCompleta db p.solicitudId with
  | none => Except.error (AppError.notFound "Solicitud de compra")
  | some solicitud =>
    if solicitud.estado ∈ estadosAprobables then
      if puedeAprobar p.rol solicitud.estado then
        Except.ok solicitud
      else
        Except.error (AppError.forbidden
          ("El rol " ++ p.rol ++ " no puede aprobar en el nivel actual: "
            ++ estadoString solicitud.estado))
    else
      Except.error (AppError.validation
        ("No se puede procesar una solicitud en estado: " ++ estadoString solicitud.estado))

/-- The transactional tail of `procesarAprobacion` on the snapshot `solicitud`
read before the transaction: `rechazar` targets `rechazada`, any other action
targets `siguienteEstado(estadoActual, monto_total)` (Validation when that is
null); then the state is written and one ledger row with
`nivel = nivelMap[estadoActual]` is appended, atomically. -/
def transaccionAprobacion (u : Umbrales) (db : DB) (p : AccionParams) (solicitud : Solicitud) :
    Except AppError ResultadoAprobacion × DB :=
  withTransaction db (fun db0 =>
    match
      (if p.accion = "rechazar" then some Estado.rechazada
       else siguienteEstado u solicitud.estado solicitud.monto_total) with
    | none => Except.error (AppError.validation "No hay siguiente estado en el flujo")
    | some estadoResultante =>
      match registrarAprobacion
          (actualizarEstadoSolicitudRet db0 p.solicitudId estadoResultante p.usuarioId).2
          { solicitud_id := p.solicitudId, nivel_aprobacion := nivelMap solicitud.estado,
            accion := p.accion, comentario := p.comentario, aprobador_id := p.usuarioId,
            estado_resultante := estadoResultante } with
      | Except.error e => Except.error e
      | Except.ok db2 =>
        Except.ok
          ({ solicitudId := p.solicitudId, estadoAnterior := solicitud.estado,
             estadoNuevo := estadoResultante },
           db2))

/-- Service `procesarAprobacion({solicitudId, accion, comentario, usuarioId, rol})`:
the pre-transaction read and validations followed by the transactional tail. -/
def procesarAprobacion (u : Umbrales) (db : DB) (p : AccionParams) :
    Except AppError ResultadoAprobacion × DB :=
  match validarAprobacion db p with
  | Except.error e => (Except.error e, db)
  | Except.ok solicitud => transaccionAprobacion u db p solicitud

/-- The HTTP body of `PATCH /:id/aprobacion` before schema validation. -/
structure AccionBody where
  accion : Option String
  comentario : Option String
deriving DecidableEq

/-- The route `PATCH /:id/aprobacion`: `validate(accionAprobacionSchema)`
followed by the controller calling `procesarAprobacion`.  The message of the
middleware ValidationError is the join of the Joi detail messages, abstracted
here to the error code. -/
def aprobarConValidacion (u : Umbrales) (db : DB) (solicitudId : Nat) (body : AccionBody)
    (usuarioId : Nat) (rol : String) : Except AppError ResultadoAprobacion × DB :=
  if accionAprobacionValida body.accion body.comentario then
    procesarAprobacion u db
      { solicitudId := solicitudId, accion := body.accion.getD "",
        comentario := body.comentario, usuarioId := usuarioId, rol := rol }
  else
    (Except.error (AppError.validation "VALIDATION_ERROR"), db)

/-- An interleaving of two `procesarAprobacion` calls that the code admits:
both reads and both validations run outside any transaction
(`obtenerSolicitudCompleta` queries the pool directly, without `FOR UPDATE`,
and the checks precede `withTransaction`), so both calls may observe the same
initial state before either transactional tail commits; the two tails then
commit in sequence. -/
def carreraAprobaciones (u : Umbrales) (db : DB) (p1 p2 : AccionParams) :
    (Except AppError ResultadoAprobacion × Except AppError ResultadoAprobacion) × DB :=
  match validarAprobacion db p1, validarAprobacion db p2 with
  | Except.ok s1, Except.ok s2 =>
    let r1 := transaccionAprobacion u db p1 s1
    let r2 := transaccionAprobacion u r1.2 p2 s2
    ((r1.1, r2.1), r2.2)
  | Except.error e1, Except.ok s2 =>
    let r2 := transaccionAprobacion u db p2 s2
    ((Except.error e1, r2.1), r2.2)
  | Except.ok s1, Except.error e2 =>
    let r1 := transaccionAprobacion u db p1 s1
    ((r1.1, Except.error e2), r1.2)
  | Except.error e1, Except.error e2 => ((Except.error e1, Except.error e2), db)

/-- A draft request used by concrete instances below. -/
def solDemo : Solicitud :=
  { id := 1, titulo := "compra de licencias", justificacion := "renovacion anual",
    proyecto_id := none, area_id := 3, estado := Estado.borrador, urgente := false,
    monto_total := 4000000, solicitante_id := 7, updated_by := none, deleted := false }

/-- A one-request database used by concrete instances below. -/
def dbDemo : DB := { solicitudes := [solDemo], items := [], aprobaciones := [], nextId := 2 }

/-- Path equation below both thresholds. -/
theorem flujo_eq_bajo (u : Umbrales) (a : ℚ) (h : a < u.JEFE_AREA) (h2 : a < u.GERENCIA) :
    calcularFlujoAprobacion u a = [Estado.pendiente_jefe, Estado.aprobada] := by
  unfold calcularFlujoAprobacion
  rw [if_neg (not_le.mpr h), if_neg (not_le.mpr h2)]
  rfl

/-- Path equation between the two thresholds. -/
theorem flujo_eq_medio (u : Umbrales) (a : ℚ) (h : u.JEFE_AREA ≤ a) (h2 : a < u.GERENCIA) :
    calcularFlujoAprobacion u a
      = [Estado.pendiente_jefe, Estado.pendiente_gerencia, Estado.aprobada] := by
  unfold calcularFlujoAprobacion
  rw [if_pos h, if_neg (not_le.mpr h2)]
  rfl

/-- Path equation at or above the executive threshold. -/
theorem flujo_eq_alto (u : Umbrales) (a : ℚ) (h : u.JEFE_AREA ≤ a) (h2 : u.GERENCIA ≤ a) :
    calcularFlujoAprobacion u a
      = [Estado.pendiente_jefe, Estado.pendiente_gerencia, Estado.pendiente_tesoreria,
         Estado.aprobada] := by
  unfold calcularFlujoAprobacion
  rw [if_pos h, if_pos h2]
  rfl

/-- C1: for every non-negative amount under thresholds with `T_area ≤ T_exec`,
`calcularFlujoAprobacion` returns the non-empty ordered stage path ending in
the terminal `aprobada` stage, equal to `[pendiente_jefe, aprobada]` below
`T_area`, `[pendiente_jefe, pendiente_gerencia, aprobada]` between the
thresholds, and
`[pendiente_jefe, pendiente_gerencia, pendiente_tesoreria, aprobada]` at or
above `T_exec`. -/
theorem calcularFlujoAprobacion_tramos (u : Umbrales) (a : ℚ)
    (_h0 : 0 ≤ a) (hT : u.JEFE_AREA ≤ u.GERENCIA) :
    (calcularFlujoAprobacion u a ≠ [] ∧
      (calcularFlujoAprobacion u a).getLast? = some Estado.aprobada) ∧
    (a < u.JEFE_AREA →
      calcularFlujoAprobacion u a = [Estado.pendiente_jefe, Estado.aprobada]) ∧
    (u.JEFE_AREA ≤ a → a < u.GERENCIA →
      calcularFlujoAprobacion u a
        = [Estado.pendiente_jefe, Estado.pendiente_gerencia, Estado.aprobada]) ∧
    (u.GERENCIA ≤ a →
      calcularFlujoAprobacion u a
        = [Estado.pendiente_jefe, Estado.pendiente_gerencia, Estado.pendiente_tesoreria,
           Estado.aprobada]) := by
  refine ⟨?_, ?_, ?_, ?_⟩
  · by_cases hj : u.JEFE_AREA ≤ a
    · by_cases hg : u.GERENCIA ≤ a
      · rw [flujo_eq_alto u a hj hg]; exact ⟨by decide, by decide⟩
      · rw [flujo_eq_medio u a hj (not_le.mp hg)]; exact ⟨by decide, by decide⟩
    · have hg : a < u.GERENCIA := lt_of_lt_of_le (not_le.mp hj) hT
      rw [flujo_eq_bajo u a (not_le.mp hj) hg]; exact ⟨by decide, by decide⟩
  · intro h; exact flujo_eq_bajo u a h (lt_of_lt_of_le h hT)
  · intro h1 h2; exact flujo_eq_medio u a h1 h2
  · intro h; exact flujo_eq_alto u a (le_trans hT h) h

/-- Witness for C1 at the default thresholds and the amount 4000000 of the
end-to-end scenario A of the spec. -/
theorem calcularFlujoAprobacion_tramos_witness :
    calcularFlujoAprobacion UMBRALES_APROBACION 4000000
      = [Estado.pendiente_jefe, Estado.aprobada] :=
  (calcularFlujoAprobacion_tramos UMBRALES_APROBACION 4000000 (by decide) (by decide)).2.1
    (by decide)

/-- C6: `puedeAprobar` authorizes exactly the role sets
{jefe_area, gerente, admin} at `pendiente_jefe`, {gerente, admin} at
`pendiente_gerencia` and {tesorero, admin} at `pendiente_tesoreria`, and no
role at any other stage. -/
theorem puedeAprobar_caracterizacion (rol : String) (e : Estado) :
    puedeAprobar rol e = true ↔
      ((e = Estado.pendiente_jefe ∧ (rol = "jefe_area" ∨ rol = "gerente" ∨ rol = "admin")) ∨
       (e = Estado.pendiente_gerencia ∧ (rol = "gerente" ∨ rol = "admin")) ∨
       (e = Estado.pendiente_tesoreria ∧ (rol = "tesorero" ∨ rol = "admin"))) := by
  cases e <;>
    simp [puedeAprobar, ROLES_POR_ESTADO, List.contains_eq_any_beq, List.any, Option.getD]

/-- Sum of a fold that accumulates one mapped value per element. -/
theorem foldl_add_map {β : Type} (f : β → ℚ) (l : List β) (acc : ℚ) :
    l.foldl (fun a it => a + f it) acc = acc + (l.map f).sum := by
  induction l generalizing acc with
  | nil => simp
  | cons x xs ih => simp [ih, add_assoc]

/-- C7: the stored `monto_total` of every created request equals the sum of
its stored item subtotals, which is the sum over the submitted items of
quantity times unit price — so recomputing the total from the stored
subtotals reproduces the stored total. -/
theorem crearSolicitud_montoTotal (db : DB) (datos : DatosSolicitud) (sid : Nat) :
    ((crearSolicitud db datos sid).1.1.monto_total
        = (((crearSolicitud db datos sid).1.2).map (fun it => it.subtotal)).sum) ∧
    ((crearSolicitud db datos sid).1.1.monto_total
        = (datos.items.map (fun it => it.cantidad * it.precio_unitario)).sum) := by
  unfold crearSolicitud
  refine ⟨?_, ?_⟩ <;> (simp only [foldl_add_map, List.map_map, zero_add]; try rfl)

/-- After `actualizarEstadoSolicitud`, reading the same id returns the found
row with the new state and updating user stamped (the update preserves id and
deletion marker, so the same row is found). -/
theorem obtener_tras_actualizar (db : DB) (i : Nat) (e : Estado) (uid : Nat) (sol : Solicitud)
    (h : obtenerSolicitudCompleta db i = some sol) :
    obtenerSolicitudCompleta (actualizarEstadoSolicitudRet db i e uid).2 i
      = some { sol with estado := e, updated_by := some uid } := by
  unfold obtenerSolicitudCompleta at h ⊢
  unfold actualizarEstadoSolicitudRet
  dsimp only
  have hp := List.find?_some h
  have hid : sol.id = i := by
    simp only [Bool.and_eq_true, beq_iff_eq] at hp
    exact hp.1
  have hfun : ((fun s : Solicitud => s.id == i && !s.deleted) ∘
      (fun s : Solicitud =>
        if s.id = i then { s with estado := e, updated_by := some uid } else s))
      = fun s : Solicitud => s.id == i && !s.deleted := by
    funext s
    by_cases hs : s.id = i
    · simp [Function.comp, hs]
    · simp [Function.comp, hs]
  show List.find? _ (db.solicitudes.map _) = _
  rw [List.find?_map, hfun, h]
  simp [hid]

/-- `enviarSolicitud` on an absent or soft-deleted request: NotFound, state
untouched. -/
theorem enviar_eq_noEncontrada (db : DB) (sid uid : Nat)
    (hob : obtenerSolicitudCompleta db sid = none) :
    enviarSolicitud db sid uid = (Except.error (AppError.notFound "Solicitud de compra"), db) := by
  unfold enviarSolicitud
  rw [hob]

/-- `enviarSolicitud` by a non-requester: Forbidden, state untouched. -/
theorem enviar_eq_prohibida (db : DB) (sid uid : Nat) (sol : Solicitud)
    (hob : obtenerSolicitudCompleta db sid = some sol)
    (hne : sol.solicitante_id ≠ uid) :
    enviarSolicitud db sid uid
      = (Except.error (AppError.forbidden "Solo el solicitante puede enviar esta solicitud"),
         db) := by
  unfold enviarSolicitud
  rw [hob]
  simp [hne]

/-- `enviarSolicitud` on a non-draft request by its requester: Validation,
state untouched. -/
theorem enviar_eq_noBorrador (db : DB) (sid uid : Nat) (sol : Solicitud)
    (hob : obtenerSolicitudCompleta db sid = some sol)
    (heq : sol.solicitante_id = uid)
    (hne : sol.estado ≠ Estado.borrador) :
    enviarSolicitud db sid uid
      = (Except.error
          (AppError.validation "Solo se pueden enviar solicitudes en estado borrador"), db) := by
  unfold enviarSolicitud
  rw [hob]
  simp [heq, hne]

/-- `enviarSolicitud` on a draft request by its requester: success; the state
is written to `pendiente_jefe` and the level-0 `envio` ledger row is appended
in the same transaction. -/
theorem enviar_eq_exito (db : DB) (sid uid : Nat) (sol : Solicitud)
    (hob : obtenerSolicitudCompleta db sid = some sol)
    (heq : sol.solicitante_id = uid)
    (hest : sol.estado = Estado.borrador) :
    enviarSolicitud db sid uid
      = (Except.ok (actualizarEstadoSolicitudRet db sid Estado.pendiente_jefe uid).1,
         { (actualizarEstadoSolicitudRet db sid Estado.pendiente_jefe uid).2 with
            aprobaciones := db.aprobaciones ++ [eventoEnvio sid uid] }) := by
  unfold enviarSolicitud
  rw [hob]
  simp [heq, hest, withTransaction, registrarAprobacion, ACCIONES_PERMITIDAS, eventoEnvio]
  rfl

/-- C4: `enviarSolicitud` fails NotFound when the request is absent or
soft-deleted; fails Forbidden when the caller is not the requesting user;
fails Validation when the current stage is not `borrador`; and when all
preconditions hold it succeeds, the stored stage becomes `pendiente_jefe`,
and exactly one ledger row with level 0, action `envio` (the submit tag) and
resulting stage `pendiente_jefe` is appended.  In every failure case the
state is returned unchanged. -/
theorem enviarSolicitud_contrato (db : DB) (sid uid : Nat) :
    (obtenerSolicitudCompleta db sid = none →
      enviarSolicitud db sid uid = (Except.error (AppError.notFound "Solicitud de compra"), db)) ∧
    (∀ sol, obtenerSolicitudCompleta db sid = some sol → sol.solicitante_id ≠ uid →
      enviarSolicitud db sid uid
        = (Except.error (AppError.forbidden "Solo el solicitante puede enviar esta solicitud"),
           db)) ∧
    (∀ sol, obtenerSolicitudCompleta db sid = some sol → sol.solicitante_id = uid →
      sol.estado ≠ Estado.borrador →
      enviarSolicitud db sid uid
        = (Except.error
            (AppError.validation "Solo se pueden enviar solicitudes en estado borrador"), db)) ∧
    (∀ sol, obtenerSolicitudCompleta db sid = some sol → sol.solicitante_id = uid →
      sol.estado = Estado.borrador →
      (∃ r, (enviarSolicitud db sid uid).1 = Except.ok r) ∧
      obtenerSolicitudCompleta (enviarSolicitud db sid uid).2 sid
        = some { sol with estado := Estado.pendiente_jefe, updated_by := some uid } ∧
      (enviarSolicitud db sid uid).2.aprobaciones
        = db.aprobaciones
            ++ [{ solicitud_id := sid, nivel_aprobacion := some 0, accion := "envio",
                  comentario := some "Solicitud enviada para aprobación", aprobador_id := uid,
                  estado_resultante := Estado.pendiente_jefe }]) := by
  refine ⟨?_, ?_, ?_, ?_⟩
  · intro hob; exact enviar_eq_noEncontrada db sid uid hob
  · intro sol hob hne; exact enviar_eq_prohibida db sid uid sol hob hne
  · intro sol hob heq hne; exact enviar_eq_noBorrador db sid uid sol hob heq hne
  · intro sol hob heq hest
    rw [enviar_eq_exito db sid uid sol hob heq hest]
    exact ⟨⟨_, rfl⟩, obtener_tras_actualizar db sid Estado.pendiente_jefe uid sol hob, rfl⟩

/-- Witness for C4: on the concrete draft request of `dbDemo`, submission by
the requester stores `pendiente_jefe`. -/
theorem enviarSolicitud_contrato_witness :
    obtenerSolicitudCompleta (enviarSolicitud dbDemo 1 7).2 1
      = some { solDemo with estado := Estado.pendiente_jefe, updated_by := some 7 } :=
  ((enviarSolicitud_contrato dbDemo 1 7).2.2.2 solDemo (by decide) (by decide) (by decide)).2.1

/-- `validarAprobacion` on an absent or soft-deleted request: NotFound. -/
theorem validar_eq_noEncontrada (db : DB) (p : AccionParams)
    (hob : obtenerSolicitudCompleta db p.solicitudId = none) :
    validarAprobacion db p = Except.error (AppError.notFound "Solicitud de compra") := by
  unfold validarAprobacion
  rw [hob]

/-- `validarAprobacion` on a request outside the three pending states:
Validation. -/
theorem validar_eq_noPendiente (db : DB) (p : AccionParams) (sol : Solicitud)
    (hob : obtenerSolicitudCompleta db p.solicitudId = some sol)
    (hnp : sol.estado ∉ estadosAprobables) :
    validarAprobacion db p
      = Except.error (AppError.validation
          ("No se puede procesar una solicitud en estado: " ++ estadoString sol.estado)) := by
  unfold validarAprobacion
  rw [hob]
  simp [hnp]

/-- `validarAprobacion` with an unauthorized role at a pending state:
Forbidden. -/
theorem validar_eq_prohibido (db : DB) (p : AccionParams) (sol : Solicitud)
    (hob : obtenerSolicitudCompleta db p.solicitudId = some sol)
    (hpend : sol.estado ∈ estadosAprobables)
    (hrol : puedeAprobar p.rol sol.estado = false) :
    validarAprobacion db p
      = Except.error (AppError.forbidden
          ("El rol " ++ p.rol ++ " no puede aprobar en el nivel actual: "
            ++ estadoString sol.estado)) := by
  unfold validarAprobacion
  rw [hob]
  simp [hpend, hrol]

/-- `validarAprobacion` on a pending request with an authorized role returns
the read snapshot. -/
theorem validar_eq_ok (db : DB) (p : AccionParams) (sol : Solicitud)
    (hob : obtenerSolicitudCompleta db p.solicitudId = some sol)
    (hpend : sol.estado ∈ estadosAprobables)
    (hrol : puedeAprobar p.rol sol.estado = true) :
    validarAprobacion db p = Except.ok sol := by
  unfold validarAprobacion
  rw [hob]
  simp [hpend, hrol]

/-- The transactional tail when a target state exists: committed write plus
one ledger row. -/
theorem transaccion_eq_exito (u : Umbrales) (db : DB) (p : AccionParams) (sol : Solicitud)
    (e : Estado)
    (hres : (if p.accion = "rechazar" then some Estado.rechazada
             else siguienteEstado u sol.estado sol.monto_total) = some e)
    (haccion : p.accion ∈ ACCIONES_PERMITIDAS) :
    transaccionAprobacion u db p sol
      = (Except.ok { solicitudId := p.solicitudId, estadoAnterior := sol.estado,
                     estadoNuevo := e },
         { (actualizarEstadoSolicitudRet db p.solicitudId e p.usuarioId).2 with
            aprobaciones := db.aprobaciones
              ++ [{ solicitud_id := p.solicitudId, nivel_aprobacion := nivelMap sol.estado,
                    accion := p.accion, comentario := p.comentario, aprobador_id := p.usuarioId,
                    estado_resultante := e }] }) := by
  unfold transaccionAprobacion withTransaction registrarAprobacion
  simp [hres, haccion, actualizarEstadoSolicitudRet]

/-- The transactional tail on an out-of-domain action tag: the stage UPDATE
is executed, but the ledger INSERT violates the CHECK constraint on `accion`,
so the transaction rolls back to the pre-transaction state. -/
theorem transaccion_eq_accionInvalida (u : Umbrales) (db : DB) (p : AccionParams)
    (sol : Solicitud) (e : Estado)
    (hres : (if p.accion = "rechazar" then some Estado.rechazada
             else siguienteEstado u sol.estado sol.monto_total) = some e)
    (haccion : p.accion ∉ ACCIONES_PERMITIDAS) :
    transaccionAprobacion u db p sol
      = (Except.error (AppError.storage "aprobaciones_compra_accion_check"), db) := by
  unfold transaccionAprobacion withTransaction registrarAprobacion
  simp [hres, haccion]

/-- The transactional tail when no target state exists: the defensive
Validation failure, rolled back. -/
theorem transaccion_eq_fallo (u : Umbrales) (db : DB) (p : AccionParams) (sol : Solicitud)
    (hres : (if p.accion = "rechazar" then some Estado.rechazada
             else siguienteEstado u sol.estado sol.monto_total) = none) :
    transaccionAprobacion u db p sol
      = (Except.error (AppError.validation "No hay siguiente estado en el flujo"), db) := by
  unfold transaccionAprobacion withTransaction
  dsimp only
  rw [hres]

/-- `procesarAprobacion` propagates a validation-stage error unchanged. -/
theorem procesar_eq_validacion (u : Umbrales) (db : DB) (p : AccionParams) (e : AppError)
    (hv : validarAprobacion db p = Except.error e) :
    procesarAprobacion u db p = (Except.error e, db) := by
  unfold procesarAprobacion
  rw [hv]

/-- `procesarAprobacion` after a successful validation is its transactional
tail on the read snapshot. -/
theorem procesar_eq_tras_validar (u : Umbrales) (db : DB) (p : AccionParams) (sol : Solicitud)
    (hv : validarAprobacion db p = Except.ok sol) :
    procesarAprobacion u db p = transaccionAprobacion u db p sol := by
  unfold procesarAprobacion
  rw [hv]

/-- C2: evaluation of `siguienteEstado` at a state that does not occur in the
computed path.  `flujo.indexOf(estadoActual)` is `-1` there, so
`flujo[indexActual + 1]` is `flujo[0] = pendiente_jefe`, a truthy value: the
function returns the first path entry instead of the specified null. -/
theorem siguienteEstado_estadoAusente :
    siguienteEstado UMBRALES_APROBACION Estado.borrador 0 = some Estado.pendiente_jefe ∧
    Estado.borrador ∉ calcularFlujoAprobacion UMBRALES_APROBACION 0 ∧
    siguienteEstado UMBRALES_APROBACION Estado.borrador 0 ≠ none := by decide

/-- A request sitting in `pendiente_tesoreria` whose stored amount is below
both thresholds (reachable only by out-of-band state edits, since the stored
amount is fixed at creation). -/
def solTes : Solicitud :=
  { id := 1, titulo := "compra de repuestos", justificacion := "mantenimiento correctivo",
    proyecto_id := none, area_id := 2, estado := Estado.pendiente_tesoreria, urgente := false,
    monto_total := 0, solicitante_id := 7, updated_by := none, deleted := false }

/-- Database holding only `solTes`. -/
def dbTes : DB := { solicitudes := [solTes], items := [], aprobaciones := [], nextId := 2 }

/-- A treasury approval of request 1. -/
def pTes : AccionParams :=
  { solicitudId := 1, accion := "aprobar", comentario := none, usuarioId := 9, rol := "tesorero" }

/-- C3 counterexample: approving at `pendiente_tesoreria` when the stored
amount is below `T_exec` does not yield `aprobada` — the computed path
`[pendiente_jefe, aprobada]` does not contain `pendiente_tesoreria`, so
`siguienteEstado` falls back to the first path entry and the request is sent
back to `pendiente_jefe`. -/
theorem aprobacionTesoreria_montoBajo_contraejemplo :
    (procesarAprobacion UMBRALES_APROBACION dbTes pTes).1
      = Except.ok { solicitudId := 1, estadoAnterior := Estado.pendiente_tesoreria,
                    estadoNuevo := Estado.pendiente_jefe } ∧
    Estado.pendiente_jefe ≠ Estado.aprobada := by decide

/-- When the executive threshold is reached, `pendiente_tesoreria` occurs in
the computed path and is immediately followed by `aprobada`. -/
theorem siguiente_tesoreria_alto (u : Umbrales) (m : ℚ) (hm : u.GERENCIA ≤ m) :
    siguienteEstado u Estado.pendiente_tesoreria m = some Estado.aprobada := by
  unfold siguienteEstado
  by_cases hj : u.JEFE_AREA ≤ m
  · rw [flujo_eq_alto u m hj hm]
    decide
  · unfold calcularFlujoAprobacion
    rw [if_neg hj, if_pos hm]
    decide

/-- C3 amended: for every request in `pendiente_tesoreria` on which
`procesarAprobacion` is called with an approval action by an authorized role,
the resulting stage is `aprobada` whenever the stored total amount is at
least `T_exec` — that is, whenever `pendiente_tesoreria` occurs in the path
computed for the stored amount, which holds in every state reachable through
the workflow itself. -/
theorem aprobacionTesoreria_aprueba (u : Umbrales) (db : DB) (p : AccionParams)
    (sol : Solicitud)
    (hob : obtenerSolicitudCompleta db p.solicitudId = some sol)
    (hest : sol.estado = Estado.pendiente_tesoreria)
    (hrol : puedeAprobar p.rol sol.estado = true)
    (hacc : p.accion = "aprobar")
    (hm : u.GERENCIA ≤ sol.monto_total) :
    (procesarAprobacion u db p).1
      = Except.ok { solicitudId := p.solicitudId, estadoAnterior := Estado.pendiente_tesoreria,
                    estadoNuevo := Estado.aprobada } := by
  have hpend : sol.estado ∈ estadosAprobables := by rw [hest]; decide
  have hne : p.accion ≠ "rechazar" := by rw [hacc]; decide
  have haccion : p.accion ∈ ACCIONES_PERMITIDAS := by rw [hacc]; decide
  have hres : (if p.accion = "rechazar" then some Estado.rechazada
               else siguienteEstado u sol.estado sol.monto_total) = some Estado.aprobada := by
    rw [if_neg hne, hest]
    exact siguiente_tesoreria_alto u sol.monto_total hm
  rw [procesar_eq_tras_validar u db p sol (validar_eq_ok db p sol hob hpend hrol),
    transaccion_eq_exito u db p sol Estado.aprobada hres haccion]
  rw [hest]

/-- The request of `solTes` with an amount above the executive threshold. -/
def solTesAlto : Solicitud := { solTes with monto_total := 25000000 }

/-- Database holding only `solTesAlto`. -/
def dbTesAlto : DB := { dbTes with solicitudes := [solTesAlto] }

/-- Witness for the amended C3 at the default thresholds and amount
25000000. -/
theorem aprobacionTesoreria_aprueba_witness :
    (procesarAprobacion UMBRALES_APROBACION dbTesAlto pTes).1
      = Except.ok { solicitudId := 1, estadoAnterior := Estado.pendiente_tesoreria,
                    estadoNuevo := Estado.aprobada } :=
  aprobacionTesoreria_aprueba UMBRALES_APROBACION dbTesAlto pTes solTesAlto (by decide)
    (by decide) (by decide) (by decide) (by decide)

/-- C5: for every request in one of the three pending stages with an
authorized acting role, `procesarAprobacion` with action `rechazar` and a
non-empty comment moves the stored stage to `rechazada` and appends exactly
one ledger row with action `rechazar` whose recorded level is
`nivelMap` of the stage (`pendiente_jefe` to 1, `pendiente_gerencia` to 2,
`pendiente_tesoreria` to 3); and at the route boundary a `rechazar` body
without a comment (absent or empty) always fails Validation without touching
the state. -/
theorem rechazo_contrato (u : Umbrales) :
    (∀ db p sol c,
      obtenerSolicitudCompleta db p.solicitudId = some sol →
      sol.estado ∈ estadosAprobables →
      puedeAprobar p.rol sol.estado = true →
      p.accion = "rechazar" → p.comentario = some c → c ≠ "" →
      (procesarAprobacion u db p).1
          = Except.ok { solicitudId := p.solicitudId, estadoAnterior := sol.estado,
                        estadoNuevo := Estado.rechazada } ∧
        obtenerSolicitudCompleta (procesarAprobacion u db p).2 p.solicitudId
          = some { sol with estado := Estado.rechazada, updated_by := some p.usuarioId } ∧
        (procesarAprobacion u db p).2.aprobaciones
          = db.aprobaciones
              ++ [{ solicitud_id := p.solicitudId, nivel_aprobacion := nivelMap sol.estado,
                    accion := "rechazar", comentario := some c, aprobador_id := p.usuarioId,
                    estado_resultante := Estado.rechazada }] ∧
        (nivelMap Estado.pendiente_jefe = some 1 ∧ nivelMap Estado.pendiente_gerencia = some 2 ∧
          nivelMap Estado.pendiente_tesoreria = some 3)) ∧
    (∀ db sid uid rol com, com = none ∨ com = some "" →
      aprobarConValidacion u db sid { accion := some "rechazar", comentario := com } uid rol
        = (Except.error (AppError.validation "VALIDATION_ERROR"), db)) := by
  constructor
  · intro db p sol c hob hpend hrol hacc hcom hcne
    have hres : (if p.accion = "rechazar" then some Estado.rechazada
                 else siguienteEstado u sol.estado sol.monto_total) = some Estado.rechazada := by
      rw [if_pos hacc]
    have haccion : p.accion ∈ ACCIONES_PERMITIDAS := by rw [hacc]; decide
    rw [procesar_eq_tras_validar u db p sol (validar_eq_ok db p sol hob hpend hrol),
      transaccion_eq_exito u db p sol Estado.rechazada hres haccion]
    refine ⟨rfl, ?_, ?_, rfl, rfl, rfl⟩
    · exact obtener_tras_actualizar db p.solicitudId Estado.rechazada p.usuarioId sol hob
    · rw [hacc, hcom]
  · intro db sid uid rol com hcom
    rcases hcom with h | h <;> subst h <;> rfl

/-- The demo request sitting at the executive stage. -/
def solGer : Solicitud := { solDemo with estado := Estado.pendiente_gerencia }

/-- Database holding only `solGer`. -/
def dbGer : DB := { dbDemo with solicitudes := [solGer] }

/-- An executive rejection with a comment, for request 1. -/
def pRech : AccionParams :=
  { solicitudId := 1, accion := "rechazar", comentario := some "presupuesto excedido",
    usuarioId := 5, rol := "gerente" }

/-- Witness for C5: a concrete rejection at `pendiente_gerencia` with a
non-empty comment lands in `rechazada`. -/
theorem rechazo_contrato_witness :
    (procesarAprobacion UMBRALES_APROBACION dbGer pRech).1
      = Except.ok { solicitudId := 1, estadoAnterior := Estado.pendiente_gerencia,
                    estadoNuevo := Estado.rechazada } :=
  ((rechazo_contrato UMBRALES_APROBACION).1 dbGer pRech solGer "presupuesto excedido"
    (by decide) (by decide) (by decide) rfl rfl (by decide)).1

/-- On any callback error `withTransaction` restores the pre-transaction
state. -/
theorem withTransaction_error {α : Type} (db : DB) (cb : DB → Except AppError (α × DB))
    (e : AppError) (h : (withTransaction db cb).1 = Except.error e) :
    (withTransaction db cb).2 = db := by
  unfold withTransaction at h ⊢
  cases hcb : cb db with
  | ok r => rw [hcb] at h; simp at h
  | error e2 => rfl

/-- Every failing `enviarSolicitud` call leaves the state unchanged. -/
theorem enviar_error_rollback (db : DB) (sid uid : Nat) (e : AppError)
    (h : (enviarSolicitud db sid uid).1 = Except.error e) :
    (enviarSolicitud db sid uid).2 = db := by
  cases hob : obtenerSolicitudCompleta db sid with
  | none => rw [enviar_eq_noEncontrada db sid uid hob]
  | some sol =>
    by_cases h1 : sol.solicitante_id = uid
    · by_cases h2 : sol.estado = Estado.borrador
      · rw [enviar_eq_exito db sid uid sol hob h1 h2] at h
        simp at h
      · rw [enviar_eq_noBorrador db sid uid sol hob h1 h2]
    · rw [enviar_eq_prohibida db sid uid sol hob h1]

/-- Every failing `procesarAprobacion` call leaves the state unchanged. -/
theorem procesar_error_rollback (u : Umbrales) (db : DB) (p : AccionParams) (e : AppError)
    (h : (procesarAprobacion u db p).1 = Except.error e) :
    (procesarAprobacion u db p).2 = db := by
  cases hv : validarAprobacion db p with
  | error e2 => rw [procesar_eq_validacion u db p e2 hv]
  | ok sol =>
    rw [procesar_eq_tras_validar u db p sol hv] at h ⊢
    cases hres : (if p.accion = "rechazar" then some Estado.rechazada
                  else siguienteEstado u sol.estado sol.monto_total) with
    | none => rw [transaccion_eq_fallo u db p sol hres]
    | some e2 =>
      by_cases haccion : p.accion ∈ ACCIONES_PERMITIDAS
      · rw [transaccion_eq_exito u db p sol e2 hres haccion] at h
        simp at h
      · rw [transaccion_eq_accionInvalida u db p sol e2 hres haccion]

/-- C8: for every failing `enviarSolicitud` or `procesarAprobacion` call —
and, through the `withTransaction` clause, for any error raised inside the
transactional unit, storage failures included — neither the stored stage nor
the ledger changes; and every successful call appends exactly one ledger row
in the same state change that rewrites the request row, so no partial state
is observable. -/
theorem transacciones_atomicas (u : Umbrales) (db : DB) (sid uid : Nat) (p : AccionParams) :
    (∀ (α : Type) (cb : DB → Except AppError (α × DB)) (e : AppError),
      (withTransaction db cb).1 = Except.error e → (withTransaction db cb).2 = db) ∧
    (∀ e, (enviarSolicitud db sid uid).1 = Except.error e → (enviarSolicitud db sid uid).2 = db) ∧
    (∀ e, (procesarAprobacion u db p).1 = Except.error e →
      (procesarAprobacion u db p).2 = db) ∧
    (∀ r, (enviarSolicitud db sid uid).1 = Except.ok r →
      ∃ ev, (enviarSolicitud db sid uid).2.aprobaciones = db.aprobaciones ++ [ev] ∧
        (enviarSolicitud db sid uid).2.solicitudes
          = db.solicitudes.map (fun s =>
              if s.id = sid then { s with estado := Estado.pendiente_jefe, updated_by := some uid }
              else s)) ∧
    (∀ r, (procesarAprobacion u db p).1 = Except.ok r →
      ∃ ev, (procesarAprobacion u db p).2.aprobaciones = db.aprobaciones ++ [ev] ∧
        (procesarAprobacion u db p).2.solicitudes
          = db.solicitudes.map (fun s =>
              if s.id = p.solicitudId then
                { s with estado := r.estadoNuevo, updated_by := some p.usuarioId }
              else s)) := by
  refine ⟨fun α => @withTransaction_error α db, enviar_error_rollback db sid uid,
    procesar_error_rollback u db p, ?_, ?_⟩
  · intro r h
    cases hob : obtenerSolicitudCompleta db sid with
    | none => rw [enviar_eq_noEncontrada db sid uid hob] at h; simp at h
    | some sol =>
      by_cases h1 : sol.solicitante_id = uid
      · by_cases h2 : sol.estado = Estado.borrador
        · rw [enviar_eq_exito db sid uid sol hob h1 h2]
          exact ⟨eventoEnvio sid uid, rfl, rfl⟩
        · rw [enviar_eq_noBorrador db sid uid sol hob h1 h2] at h; simp at h
      · rw [enviar_eq_prohibida db sid uid sol hob h1] at h; simp at h
  · intro r h
    cases hv : validarAprobacion db p with
    | error e2 => rw [procesar_eq_validacion u db p e2 hv] at h; simp at h
    | ok sol =>
      rw [procesar_eq_tras_validar u db p sol hv] at h ⊢
      cases hres : (if p.accion = "rechazar" then some Estado.rechazada
                    else siguienteEstado u sol.estado sol.monto_total) with
      | none => rw [transaccion_eq_fallo u db p sol hres] at h; simp at h
      | some e2 =>
        by_cases haccion : p.accion ∈ ACCIONES_PERMITIDAS
        · rw [transaccion_eq_exito u db p sol e2 hres haccion] at h ⊢
          simp only [Except.ok.injEq] at h
          subst h
          exact ⟨{ solicitud_id := p.solicitudId, nivel_aprobacion := nivelMap sol.estado,
                   accion := p.accion, comentario := p.comentario, aprobador_id := p.usuarioId,
                   estado_resultante := e2 }, rfl, rfl⟩
        · rw [transaccion_eq_accionInvalida u db p sol e2 hres haccion] at h
          simp at h

/-- A process-approval argument record used by the atomicity witness. -/
def pDemoAtomico : AccionParams :=
  { solicitudId := 1, accion := "aprobar", comentario := none, usuarioId := 9,
    rol := "jefe_area" }

/-- An empty database used by the atomicity witness. -/
def dbVacia : DB := { solicitudes := [], items := [], aprobaciones := [], nextId := 1 }

/-- Witness for C8: a failing submission (NotFound on the empty database)
leaves the state unchanged. -/
theorem transacciones_atomicas_witness : (enviarSolicitud dbVacia 1 2).2 = dbVacia :=
  (transacciones_atomicas UMBRALES_APROBACION dbVacia 1 2 pDemoAtomico).2.1
    (AppError.notFound "Solicitud de compra") (by decide)

/-- A request waiting at `pendiente_jefe` whose amount requires the executive
tier. -/
def solCarrera : Solicitud :=
  { solDemo with estado := Estado.pendiente_jefe, monto_total := 10000000 }

/-- Database holding only `solCarrera`. -/
def dbCarrera : DB := { solicitudes := [solCarrera], items := [], aprobaciones := [], nextId := 2 }

/-- An area-lead approval of request 1 by user `uid`. -/
def pCarrera (uid : Nat) : AccionParams :=
  { solicitudId := 1, accion := "aprobar", comentario := none, usuarioId := uid,
    rol := "jefe_area" }

/-- C9: under the interleaving the code admits (both reads and validations
run outside any transaction, on separate pool connections, with no row lock
and no re-check of the stage inside the transactional tail), two concurrent
approvals of the same request in `pendiente_jefe` BOTH succeed with the same
transition to `pendiente_gerencia`, and the ledger gains TWO events — the
code has no row-level lock or optimistic stage check, contradicting the
specified outcome of exactly one success, one Validation failure and one new
event. -/
theorem carrera_doble_aprobacion :
    ((carreraAprobaciones UMBRALES_APROBACION dbCarrera (pCarrera 20) (pCarrera 21)).1.1
        = Except.ok { solicitudId := 1, estadoAnterior := Estado.pendiente_jefe,
                      estadoNuevo := Estado.pendiente_gerencia }) ∧
    ((carreraAprobaciones UMBRALES_APROBACION dbCarrera (pCarrera 20) (pCarrera 21)).1.2
        = Except.ok { solicitudId := 1, estadoAnterior := Estado.pendiente_jefe,
                      estadoNuevo := Estado.pendiente_gerencia }) ∧
    ((carreraAprobaciones UMBRALES_APROBACION dbCarrera (pCarrera 20) (pCarrera 21)).2.aprobaciones.length
        = dbCarrera.aprobaciones.length + 2) := by decide

/-- The demo request waiting at `pendiente_jefe`. -/
def solJefe : Solicitud := { solDemo with estado := Estado.pendiente_jefe }

/-- Database holding only `solJefe`. -/
def dbJefe : DB := { dbDemo with solicitudes := [solJefe] }

/-- An arbitrary unknown action sent straight to the service layer. -/
def pFulminar : AccionParams :=
  { solicitudId := 1, accion := "fulminar", comentario := none, usuarioId := 9,
    rol := "jefe_area" }

/-- C10 counterexample: the unknown action `fulminar` on a concrete pending
request with an authorized role is NOT processed as a stage-advancing
approval — the ledger INSERT violates the CHECK constraint on `accion`, the
transaction rolls back, and the call fails with stage and ledger unchanged. -/
theorem accionDesconocida_contraejemplo :
    (procesarAprobacion UMBRALES_APROBACION dbJefe pFulminar).1
        = Except.error (AppError.storage "aprobaciones_compra_accion_check") ∧
    (procesarAprobacion UMBRALES_APROBACION dbJefe pFulminar).2 = dbJefe := by decide

/-- C10 amended: `procesarAprobacion` itself validates neither its action nor
its comment argument.  Every action other than the literal tag `rechazar` is
treated as an approval attempt: with one of the known tags the stage advances
and the action is recorded verbatim in the ledger, while with an arbitrary
unknown string the attempt reaches the ledger INSERT, whose CHECK constraint
on `accion` aborts the transaction, so the call fails with no observable
change.  A `rechazar` without any comment succeeds at this layer, recording a
null comment.  The comment constraint lives only in the boundary schema
`accionAprobacionSchema`, which also rejects unknown actions. -/
theorem procesarAprobacion_sinValidacionPropia (u : Umbrales) :
    (∀ db p sol e,
      obtenerSolicitudCompleta db p.solicitudId = some sol →
      sol.estado ∈ estadosAprobables →
      puedeAprobar p.rol sol.estado = true →
      p.accion ≠ "rechazar" → p.accion ∈ ACCIONES_PERMITIDAS →
      siguienteEstado u sol.estado sol.monto_total = some e →
      (procesarAprobacion u db p).1
          = Except.ok { solicitudId := p.solicitudId, estadoAnterior := sol.estado,
                        estadoNuevo := e } ∧
        (procesarAprobacion u db p).2.aprobaciones
          = db.aprobaciones
              ++ [{ solicitud_id := p.solicitudId, nivel_aprobacion := nivelMap sol.estado,
                    accion := p.accion, comentario := p.comentario, aprobador_id := p.usuarioId,
                    estado_resultante := e }]) ∧
    (∀ db p sol e,
      obtenerSolicitudCompleta db p.solicitudId = some sol →
      sol.estado ∈ estadosAprobables →
      puedeAprobar p.rol sol.estado = true →
      p.accion ∉ ACCIONES_PERMITIDAS →
      siguienteEstado u sol.estado sol.monto_total = some e →
      (procesarAprobacion u db p).1
          = Except.error (AppError.storage "aprobaciones_compra_accion_check") ∧
        (procesarAprobacion u db p).2 = db) ∧
    (∀ db p sol,
      obtenerSolicitudCompleta db p.solicitudId = some sol →
      sol.estado ∈ estadosAprobables →
      puedeAprobar p.rol sol.estado = true →
      p.accion = "rechazar" → p.comentario = none →
      (procesarAprobacion u db p).1
          = Except.ok { solicitudId := p.solicitudId, estadoAnterior := sol.estado,
                        estadoNuevo := Estado.rechazada } ∧
        (procesarAprobacion u db p).2.aprobaciones
          = db.aprobaciones
              ++ [{ solicitud_id := p.solicitudId, nivel_aprobacion := nivelMap sol.estado,
                    accion := "rechazar", comentario := none, aprobador_id := p.usuarioId,
                    estado_resultante := Estado.rechazada }]) ∧
    (accionAprobacionValida (some "fulminar") none = false ∧
     accionAprobacionValida (some "rechazar") none = false ∧
     accionAprobacionValida (some "rechazar") (some "") = false) := by
  refine ⟨?_, ?_, ?_, by decide, by decide, by decide⟩
  · intro db p sol e hob hpend hrol hacc haccion hsig
    have hres : (if p.accion = "rechazar" then some Estado.rechazada
                 else siguienteEstado u sol.estado sol.monto_total) = some e := by
      rw [if_neg hacc]; exact hsig
    rw [procesar_eq_tras_validar u db p sol (validar_eq_ok db p sol hob hpend hrol),
      transaccion_eq_exito u db p sol e hres haccion]
    exact ⟨rfl, rfl⟩
  · intro db p sol e hob hpend hrol haccion hsig
    have hacc : p.accion ≠ "rechazar" := fun hr => haccion (by rw [hr]; decide)
    have hres : (if p.accion = "rechazar" then some Estado.rechazada
                 else siguienteEstado u sol.estado sol.monto_total) = some e := by
      rw [if_neg hacc]; exact hsig
    rw [procesar_eq_tras_validar u db p sol (validar_eq_ok db p sol hob hpend hrol),
      transaccion_eq_accionInvalida u db p sol e hres haccion]
    exact ⟨rfl, rfl⟩
  · intro db p sol hob hpend hrol hacc hcom
    have haccion : p.accion ∈ ACCIONES_PERMITIDAS := by rw [hacc]; decide
    have hres : (if p.accion = "rechazar" then some Estado.rechazada
                 else siguienteEstado u sol.estado sol.monto_total)
        = some Estado.rechazada := by
      rw [if_pos hacc]
    rw [procesar_eq_tras_validar u db p sol (validar_eq_ok db p sol hob hpend hrol),
      transaccion_eq_exito u db p sol Estado.rechazada hres haccion]
    refine ⟨rfl, ?_⟩
    rw [hacc, hcom]

/-- A reject without any comment sent straight to the service layer. -/
def pRechSinComentario : AccionParams :=
  { solicitudId := 1, accion := "rechazar", comentario := none, usuarioId := 9,
    rol := "jefe_area" }

/-- Witness for the amended C10: a comment-less reject succeeds at the
service layer on the concrete request at `pendiente_jefe`, recording a null
comment. -/
theorem procesarAprobacion_sinValidacionPropia_witness :
    (procesarAprobacion UMBRALES_APROBACION dbJefe pRechSinComentario).1
      = Except.ok { solicitudId := 1, estadoAnterior := Estado.pendiente_jefe,
                    estadoNuevo := Estado.rechazada } :=
  ((procesarAprobacion_sinValidacionPropia UMBRALES_APROBACION).2.2.1 dbJefe pRechSinComentario
    solJefe (by decide) (by decide) (by decide) rfl rfl).1
